import Mathlib

/-!
Verification of the PRD complexity analyzer (`scripts/analyze.py`).

The analyzer lower-cases the PRD text (plus an optional architecture
document), counts non-overlapping regular-expression matches for eight
factor families, clamps each count at 20, and derives a weighted score,
a category label, and story/iteration ranges.  This file gives a shallow
embedding of that pipeline:

* `Rx` is a small regular-expression language covering exactly the
  constructs appearing in the source patterns (literals, character
  classes, `.`, alternation, greedy/lazy repetition, `?`, one capture
  group, and the end-of-input anchor), together with a fuel-bounded
  backtracking matcher whose preference order (leftmost alternative
  first, greedy = longest first, lazy = shortest first) mirrors the
  Python `re` engine on these patterns.  The fuel bound is generous and
  never reached on patterns whose repeated bodies consume input, as all
  of the source's do.
* `countMatches` models `len(re.findall(p, text))`: scan left to right,
  count a match, resume after its end (advance one character on an empty
  match, as `findall` does).
* `searchCap` models `re.search(p, text)` returning `group(1)`.
* Scores are computed in `ℚ`.  The Python code uses floats, but every
  weighted sum here is an integer multiple of 0.5 and the only division
  is by 5; at every comparison threshold (5, 15, 30) the float value is
  exact, and away from a threshold the true value differs from it by at
  least 0.1, far above the rounding error, so the rational semantics and
  the float semantics classify identically.
-/

/-- Regular-expression abstract syntax: exactly the constructs used by the
patterns in `scripts/analyze.py`.  `cls` is a single-character class given
by a predicate, `dot` is `.` (any character except a newline), `star` is
greedy `*`, `starL` is lazy `*?`, `opt` is greedy `?`, `grp` is the single
capturing group `( )`, and `eos` is the `$` anchor. -/
inductive Rx where
  | eps : Rx
  | cls : (Char → Bool) → Rx
  | dot : Rx
  | cat : Rx → Rx → Rx
  | alt : Rx → Rx → Rx
  | star : Rx → Rx
  | starL : Rx → Rx
  | opt : Rx → Rx
  | grp : Rx → Rx
  | eos : Rx

/-- Node count of a pattern, used only to pick a fuel bound. -/
def rxSize : Rx → Nat
  | .eps => 1
  | .cls _ => 1
  | .dot => 1
  | .eos => 1
  | .cat a b => rxSize a + rxSize b + 1
  | .alt a b => rxSize a + rxSize b + 1
  | .star a => rxSize a + 1
  | .starL a => rxSize a + 1
  | .opt a => rxSize a + 1
  | .grp a => rxSize a + 1

/-- The capture slot: the text matched by the capturing group, when the
group participated in the match. -/
abbrev Caps := Option (List Char)

/-- Result of one match attempt: the remaining input after the match and
the capture slot, or `none` on failure. -/
abbrev MRes := Option (List Char × Caps)

/-- Backtracking matcher in continuation-passing style.  `mRun fuel r s cap k`
tries to match `r` at the front of `s` and passes the remaining input and
capture slot to `k`; alternatives are tried left first, greedy repetition
tries the longer match first, lazy repetition the shorter.  `fuel` only
bounds the recursion; `matchHere` supplies enough fuel that it is never
exhausted for patterns whose repeated bodies consume at least one
character, which holds for every pattern of the source. -/
def mRun : Nat → Rx → List Char → Caps → (List Char → Caps → MRes) → MRes
  | 0, _, _, _, _ => none
  | _ + 1, .eps, s, cap, k => k s cap
  | _ + 1, .cls p, s, cap, k =>
      match s with
      | [] => none
      | c :: t => if p c then k t cap else none
  | _ + 1, .dot, s, cap, k =>
      match s with
      | [] => none
      | c :: t => if c == '\n' then none else k t cap
  | n + 1, .cat a b, s, cap, k =>
      mRun n a s cap (fun s' cap' => mRun n b s' cap' k)
  | n + 1, .alt a b, s, cap, k =>
      (mRun n a s cap k) <|> (mRun n b s cap k)
  | n + 1, .star a, s, cap, k =>
      (mRun n a s cap (fun s' cap' => mRun n (.star a) s' cap' k)) <|> k s cap
  | n + 1, .starL a, s, cap, k =>
      (k s cap) <|> (mRun n a s cap (fun s' cap' => mRun n (.starL a) s' cap' k))
  | n + 1, .opt a, s, cap, k =>
      (mRun n a s cap k) <|> k s cap
  | n + 1, .grp a, s, cap, k =>
      mRun n a s cap (fun s' _ => k s' (some (s.take (s.length - s'.length))))
  | _ + 1, .eos, s, cap, k =>
      match s with
      | [] => k s cap
      | _ :: _ => none

/-- Try to match `r` at the start of `s` (anchored attempt of the scan). -/
def matchHere (r : Rx) (s : List Char) : MRes :=
  mRun ((rxSize r + 1) * (s.length + 2)) r s none (fun s' cap => some (s', cap))

/-- Model of `re.search`: scan start positions left to right, return the
capture slot of the first successful match. -/
def searchCap (r : Rx) : List Char → Option Caps
  | [] =>
      match matchHere r [] with
      | some (_, cap) => some cap
      | none => none
  | c :: t =>
      match matchHere r (c :: t) with
      | some (_, cap) => some cap
      | none => searchCap r t

/-- Model of the scan loop of `re.findall`, bounded by a fuel that always
suffices (each step either consumes the match or advances one character). -/
def countFrom : Nat → Rx → List Char → Nat
  | 0, _, _ => 0
  | n + 1, r, s =>
      match matchHere r s with
      | some (s', _) =>
          if s'.length < s.length then 1 + countFrom n r s'
          else 1 + (match s with | [] => 0 | _ :: t => countFrom n r t)
      | none =>
          match s with
          | [] => 0
          | _ :: t => countFrom n r t

/-- Model of `len(re.findall(r, s))`: the number of non-overlapping
matches, scanning left to right. -/
def countMatches (r : Rx) (s : List Char) : Nat :=
  countFrom (s.length + 1) r s

/-- ASCII `\s` of the `re` module: space, tab, newline, carriage return,
vertical tab, form feed. -/
def isPySpace (c : Char) : Bool :=
  c == ' ' || c == '\t' || c == '\n' || c == '\r' || c == '\x0b' || c == '\x0c'

/-- One character, compared case-insensitively (all patterns of the source
are compiled with `re.IGNORECASE`). -/
def ichar (c : Char) : Rx :=
  .cls (fun x => x.toLower == c.toLower)

/-- A literal string, case-insensitively. -/
def lit (str : String) : Rx :=
  str.data.foldr (fun c r => .cat (ichar c) r) .eps

/-- `a|b|c|...` with the source's left-to-right preference. -/
def alts : List Rx → Rx
  | [] => .eps
  | [r] => r
  | r :: rest => .alt r (alts rest)

/-- `\s` -/
def wsP : Rx := .cls isPySpace

/-- `\s+` -/
def wsSome : Rx := .cat wsP (.star wsP)

/-- `\s*` -/
def wsAny : Rx := .star wsP

/-- `\d` -/
def digitP : Rx := .cls (fun c => c.isDigit)

/-- `r+` -/
def plusP (r : Rx) : Rx := .cat r (.star r)

/-- `[- ]` -/
def dashSpace : Rx := .cls (fun c => c == '-' || c == ' ')

/-- `[A-Z]` and `[a-zA-Z]` under `re.IGNORECASE`: any ASCII letter. -/
def alphaP : Rx := .cls (fun c => c.isAlpha)

/-- `(?:\n|$)` -/
def nlOrEnd : Rx := .alt (.cls (fun c => c == '\n')) .eos

/-- `.+?` (lazy) -/
def dotPlusLazy : Rx := .cat .dot (.starL .dot)

/-- `.+` (greedy) -/
def dotPlus : Rx := .cat .dot (.star .dot)


/-- `PATTERNS["functional_requirements"]` of `ComplexityAnalyzer`. -/
def pat_functional_requirements : List Rx :=
  [ .cat (alts [lit "must", lit "shall", lit "should", lit "will"])
      (.cat wsSome (alts [lit "be able to", lit "allow", lit "enable", lit "support"])),
    .cat (lit "FR-") (plusP digitP),
    .cat (lit "requirement") (.cat (.opt (ichar 's')) (.cat wsAny (ichar ':'))),
    .cat (alts [lit "user", lit "system"])
      (.cat wsSome (alts [lit "can", lit "will", lit "should"])) ]

/-- `PATTERNS["integration_points"]`. -/
def pat_integration_points : List Rx :=
  [ .cat (lit "integrat") (.cat (alts [lit "e", lit "ion", lit "ing"]) (.cat wsSome (lit "with"))),
    .cat (lit "connect") (.cat (.opt (alts [lit "s", lit "ing"])) (.cat wsSome (lit "to"))),
    .cat (alts [.cat (lit "third") (.cat dashSpace (lit "party")), lit "external"])
      (.cat wsSome (alts [lit "service", lit "system", lit "api"])),
    .cat (lit "webhook") (.opt (ichar 's')),
    .cat (alts [lit "import", lit "export"]) (.cat wsSome (alts [lit "from", lit "to"])) ]

/-- `PATTERNS["ui_components"]`. -/
def pat_ui_components : List Rx :=
  [ alts [lit "button", lit "form", lit "modal", lit "dialog", lit "dropdown",
          lit "menu", lit "table", lit "list", lit "card", lit "panel"],
    alts [lit "page", lit "screen", lit "view", lit "component", lit "widget"],
    alts [lit "display", lit "show", lit "render", lit "present"],
    lit "UI/UX",
    alts [lit "click", lit "tap", lit "hover", lit "drag", lit "drop"] ]

/-- `PATTERNS["database_changes"]`. -/
def pat_database_changes : List Rx :=
  [ alts [lit "database", lit "db", lit "schema", lit "table", lit "column",
          lit "field", lit "migration"],
    .cat (alts [lit "create", lit "update", lit "delete", lit "insert"])
      (.cat wsSome (alts [lit "table", lit "record", lit "row"])),
    alts [lit "sql", lit "query", lit "index"],
    alts [lit "foreign key", lit "primary key", lit "constraint"] ]

/-- `PATTERNS["external_apis"]`. -/
def pat_external_apis : List Rx :=
  [ alts [lit "api", lit "endpoint", lit "rest", lit "graphql", lit "grpc"],
    .cat (alts [lit "http", lit "https"]) (.cat wsAny (lit "://")),
    .cat (alts [lit "get", lit "post", lit "put", lit "patch", lit "delete"])
      (.cat wsSome (alts [lit "request", lit "endpoint"])),
    alts [lit "oauth", .cat (lit "api") (.cat dashSpace (lit "key")), lit "token"] ]

/-- `PATTERNS["authentication_features"]`. -/
def pat_authentication_features : List Rx :=
  [ alts [lit "auth", lit "login", lit "logout", lit "signin", lit "signout", lit "signup"],
    alts [lit "password", lit "credential", lit "session", lit "jwt", lit "token"],
    alts [lit "permission", lit "role", lit "access control", lit "rbac"],
    alts [lit "mfa", lit "2fa", .cat (lit "two") (.cat dashSpace (lit "factor"))] ]

/-- `PATTERNS["file_operations"]`. -/
def pat_file_operations : List Rx :=
  [ alts [lit "upload", lit "download", lit "file", lit "attachment", lit "document"],
    alts [lit "storage", lit "s3", lit "blob", lit "bucket"],
    alts [lit "image", lit "video", lit "audio", lit "media"] ]

/-- `PATTERNS["real_time_features"]`. -/
def pat_real_time_features : List Rx :=
  [ alts [.cat (lit "real") (.cat dashSpace (lit "time")), lit "live",
          lit "streaming", lit "websocket"],
    alts [lit "notification", lit "push", lit "alert"],
    alts [lit "sync", lit "synchroniz"] ]

/-- The `ComplexityFactors` dataclass: eight factor counters. -/
structure ComplexityFactors where
  functional_requirements : ℕ := 0
  integration_points : ℕ := 0
  ui_components : ℕ := 0
  database_changes : ℕ := 0
  external_apis : ℕ := 0
  authentication_features : ℕ := 0
  file_operations : ℕ := 0
  real_time_features : ℕ := 0
deriving DecidableEq

/-- `ComplexityFactors.calculate_score`: the weighted sum divided by 5.
The Python float arithmetic is exact on these values up to the final
division, whose rounding never crosses a classification threshold, so the
score is modelled exactly in `ℚ`. -/
def ComplexityFactors.calculate_score (f : ComplexityFactors) : ℚ :=
  ((f.functional_requirements : ℚ) * 2 +
    (f.integration_points : ℚ) * 3 +
    (f.ui_components : ℚ) * 1.5 +
    (f.database_changes : ℚ) * 2 +
    (f.external_apis : ℚ) * 3 +
    (f.authentication_features : ℚ) * 4 +
    (f.file_operations : ℚ) * 1.5 +
    (f.real_time_features : ℚ) * 3) / 5

/-- `ComplexityFactors.get_category`: threshold chain on the score. -/
def ComplexityFactors.get_category (f : ComplexityFactors) : String :=
  if f.calculate_score ≤ 5 then "simple"
  else if f.calculate_score ≤ 15 then "medium"
  else if f.calculate_score ≤ 30 then "complex"
  else "enterprise"

/-- The `ranges` dict of `get_story_count_range`, in insertion order. -/
def story_ranges_table : List (String × (ℕ × ℕ)) :=
  [("simple", (3, 5)), ("medium", (6, 12)), ("complex", (13, 25)), ("enterprise", (26, 50))]

/-- `ComplexityFactors.get_story_count_range`: `ranges.get(category, (6, 12))`. -/
def ComplexityFactors.get_story_count_range (f : ComplexityFactors) : ℕ × ℕ :=
  (story_ranges_table.lookup f.get_category).getD (6, 12)

/-- `ComplexityFactors.get_iteration_estimate`: `(min_stories, int(max_stories * 1.5))`.
For a nonnegative integer `n` (far below float precision limits),
`int(n * 1.5)` truncates `1.5 n` toward zero, i.e. equals `3 * n / 2` in
natural-number division. -/
def ComplexityFactors.get_iteration_estimate (f : ComplexityFactors) : ℕ × ℕ :=
  match f.get_story_count_range with
  | (min_stories, max_stories) => (min_stories, 3 * max_stories / 2)

/-- `str.lower()` (ASCII; all inputs considered here are ASCII). -/
def pyLower (l : List Char) : List Char := l.map Char.toLower

/-- The combined text built by `ComplexityAnalyzer.__init__`:
`f"{content.lower()}\n{(arch_content or '').lower()}"`. -/
def combinedContent (content : String) (archContent : Option String) : List Char :=
  pyLower content.data ++ '\n' :: pyLower (archContent.getD "").data

/-- The inner loop of `ComplexityAnalyzer.analyze` for one factor:
`count += len(re.findall(pattern, combined))` over the factor's patterns. -/
def countFactor (ps : List Rx) (t : List Char) : ℕ :=
  ps.foldl (fun acc p => acc + countMatches p t) 0

/-- `ComplexityAnalyzer.analyze`: per-factor summed match counts, each
clamped by `min(count, 20)`. -/
def ComplexityAnalyzer.analyze (content : String) (archContent : Option String) :
    ComplexityFactors :=
  let t := combinedContent content archContent
  { functional_requirements := min (countFactor pat_functional_requirements t) 20,
    integration_points := min (countFactor pat_integration_points t) 20,
    ui_components := min (countFactor pat_ui_components t) 20,
    database_changes := min (countFactor pat_database_changes t) 20,
    external_apis := min (countFactor pat_external_apis t) 20,
    authentication_features := min (countFactor pat_authentication_features t) 20,
    file_operations := min (countFactor pat_file_operations t) 20,
    real_time_features := min (countFactor pat_real_time_features t) 20 }

/-- Title pattern 1 of `extract_feature_name`:
`#\s*(?:PRD|Feature|Product Requirements):\s*(.+)`. -/
def titlePat1 : Rx :=
  .cat (ichar '#')
    (.cat wsAny
      (.cat (alts [lit "PRD", lit "Feature", lit "Product Requirements"])
        (.cat (ichar ':') (.cat wsAny (.grp dotPlus)))))

/-- Title pattern 2: `#\s*(.+?)(?:\n|$)`. -/
def titlePat2 : Rx :=
  .cat (ichar '#') (.cat wsAny (.cat (.grp dotPlusLazy) nlOrEnd))

/-- Title pattern 3: `(?:feature|project):\s*(.+?)(?:\n|$)`. -/
def titlePat3 : Rx :=
  .cat (alts [lit "feature", lit "project"])
    (.cat (ichar ':') (.cat wsAny (.cat (.grp dotPlusLazy) nlOrEnd)))

/-- `str.strip()`: remove leading and trailing whitespace. -/
def pyStrip (l : List Char) : List Char :=
  ((l.dropWhile isPySpace).reverse.dropWhile isPySpace).reverse

/-- `str.strip("-")`: remove leading and trailing dashes. -/
def stripDash (l : List Char) : List Char :=
  ((l.dropWhile (· == '-')).reverse.dropWhile (· == '-')).reverse

/-- True for the characters kept verbatim by `re.sub(r"[^a-z0-9]+", "-", ·)`. -/
def isSlugChar (c : Char) : Bool :=
  ('a' ≤ c && c ≤ 'z') || ('0' ≤ c && c ≤ '9')

/-- `re.sub(r"[^a-z0-9]+", "-", ·)`: replace each maximal run of
non-kept characters by a single dash.  The flag records whether we are
inside such a run (its dash already emitted). -/
def collapseRuns : Bool → List Char → List Char
  | _, [] => []
  | inRun, c :: t =>
      if isSlugChar c then c :: collapseRuns false t
      else if inRun then collapseRuns true t
      else '-' :: collapseRuns true t

/-- The slugification applied to a matched title:
`re.sub(r"[^a-z0-9]+", "-", title.strip().lower()).strip("-")`. -/
def slugify (cap : Caps) : String :=
  String.mk (stripDash (collapseRuns false (pyLower (pyStrip (cap.getD [])))))

/-- `ComplexityAnalyzer.extract_feature_name`: try the three title
patterns in order against the lower-cased PRD text, slugify the first
match's group 1, fall back to `"feature"`. -/
def ComplexityAnalyzer.extract_feature_name (content : String) : String :=
  match searchCap titlePat1 (pyLower content.data) with
  | some cap => slugify cap
  | none =>
    match searchCap titlePat2 (pyLower content.data) with
    | some cap => slugify cap
    | none =>
      match searchCap titlePat3 (pyLower content.data) with
      | some cap => slugify cap
      | none => "feature"

/-- Project pattern 1 of `extract_project_name`: `project:\s*(.+?)(?:\n|$)`. -/
def projPat1 : Rx :=
  .cat (lit "project:") (.cat wsAny (.cat (.grp dotPlusLazy) nlOrEnd))

/-- Project pattern 2:
`(?:for|in)\s+(?:the\s+)?([A-Z][a-zA-Z]+(?:\s+[A-Z][a-zA-Z]+)*)\s+(?:project|app|application)`
(under `re.IGNORECASE` the letter classes match any ASCII letter). -/
def projPat2 : Rx :=
  .cat (alts [lit "for", lit "in"])
    (.cat wsSome
      (.cat (.opt (.cat (lit "the") wsSome))
        (.cat
          (.grp (.cat alphaP
            (.cat (plusP alphaP) (.star (.cat wsSome (.cat alphaP (plusP alphaP)))))))
          (.cat wsSome (alts [lit "project", lit "app", lit "application"])))))

/-- `ComplexityAnalyzer.extract_project_name`: try the two project
patterns in order against the lower-cased PRD text, return the stripped
group 1 of the first match, fall back to `"Project"`. -/
def ComplexityAnalyzer.extract_project_name (content : String) : String :=
  match searchCap projPat1 (pyLower content.data) with
  | some cap => String.mk (pyStrip (cap.getD []))
  | none =>
    match searchCap projPat2 (pyLower content.data) with
    | some cap => String.mk (pyStrip (cap.getD []))
    | none => "Project"

/-- Twice the weighted sum, as a natural number: the score equals
`scoreNum f / 10` in `ℚ`.  This keeps all threshold reasoning in `ℕ`. -/
def scoreNum (f : ComplexityFactors) : ℕ :=
  4 * f.functional_requirements + 6 * f.integration_points +
    3 * f.ui_components + 4 * f.database_changes +
    6 * f.external_apis + 8 * f.authentication_features +
    3 * f.file_operations + 6 * f.real_time_features

theorem calculate_score_eq (f : ComplexityFactors) :
    f.calculate_score = (scoreNum f : ℚ) / 10 := by
  unfold ComplexityFactors.calculate_score scoreNum
  push_cast
  norm_num
  ring

theorem score_le_five_iff (f : ComplexityFactors) :
    f.calculate_score ≤ 5 ↔ scoreNum f ≤ 50 := by
  rw [calculate_score_eq, div_le_iff₀ (by norm_num : (0:ℚ) < 10)]
  norm_num

theorem score_le_fifteen_iff (f : ComplexityFactors) :
    f.calculate_score ≤ 15 ↔ scoreNum f ≤ 150 := by
  rw [calculate_score_eq, div_le_iff₀ (by norm_num : (0:ℚ) < 10)]
  norm_num

theorem score_le_thirty_iff (f : ComplexityFactors) :
    f.calculate_score ≤ 30 ↔ scoreNum f ≤ 300 := by
  rw [calculate_score_eq, div_le_iff₀ (by norm_num : (0:ℚ) < 10)]
  norm_num

theorem get_category_eq (f : ComplexityFactors) :
    f.get_category =
      (if scoreNum f ≤ 50 then "simple"
       else if scoreNum f ≤ 150 then "medium"
       else if scoreNum f ≤ 300 then "complex"
       else "enterprise") := by
  unfold ComplexityFactors.get_category
  simp only [score_le_five_iff, score_le_fifteen_iff, score_le_thirty_iff]

theorem score_nonneg (f : ComplexityFactors) : 0 ≤ f.calculate_score := by
  rw [calculate_score_eq]
  positivity

theorem five_lt_score_iff (f : ComplexityFactors) :
    5 < f.calculate_score ↔ 50 < scoreNum f := by
  rw [← not_le, ← not_le, score_le_five_iff]

theorem fifteen_lt_score_iff (f : ComplexityFactors) :
    15 < f.calculate_score ↔ 150 < scoreNum f := by
  rw [← not_le, ← not_le, score_le_fifteen_iff]

theorem thirty_lt_score_iff (f : ComplexityFactors) :
    30 < f.calculate_score ↔ 300 < scoreNum f := by
  rw [← not_le, ← not_le, score_le_thirty_iff]

/-- C1: for every `ComplexityFactors` record, the weighted complexity score
equals `(2·functional_requirements + 3·integration_points + 1.5·ui_components
+ 2·database_changes + 3·external_apis + 4·authentication_features +
1.5·file_operations + 3·real_time_features) / 5`. -/
theorem spec_score_formula (f : ComplexityFactors) :
    f.calculate_score =
      (2 * (f.functional_requirements : ℚ) + 3 * (f.integration_points : ℚ) +
        1.5 * (f.ui_components : ℚ) + 2 * (f.database_changes : ℚ) +
        3 * (f.external_apis : ℚ) + 4 * (f.authentication_features : ℚ) +
        1.5 * (f.file_operations : ℚ) + 3 * (f.real_time_features : ℚ)) / 5 := by
  unfold ComplexityFactors.calculate_score
  ring

/-- C2: the category is "simple" iff `0 ≤ s ≤ 5`, "medium" iff `5 < s ≤ 15`,
"complex" iff `15 < s ≤ 30`, "enterprise" iff `s > 30`; together with
`0 ≤ s` this makes the four bands contiguous, non-overlapping, and covering
`[0, ∞)`, with each boundary score belonging to the lower band. -/
theorem spec_category_bands (f : ComplexityFactors) :
    0 ≤ f.calculate_score ∧
    (f.get_category = "simple" ↔ 0 ≤ f.calculate_score ∧ f.calculate_score ≤ 5) ∧
    (f.get_category = "medium" ↔ 5 < f.calculate_score ∧ f.calculate_score ≤ 15) ∧
    (f.get_category = "complex" ↔ 15 < f.calculate_score ∧ f.calculate_score ≤ 30) ∧
    (f.get_category = "enterprise" ↔ 30 < f.calculate_score) := by
  refine ⟨score_nonneg f, ?_, ?_, ?_, ?_⟩
  · rw [get_category_eq, score_le_five_iff]
    simp only [score_nonneg f, true_and]
    split_ifs with h1 h2 h3 <;> simp <;> omega
  · rw [get_category_eq, five_lt_score_iff, score_le_fifteen_iff]
    split_ifs with h1 h2 h3 <;> simp <;> omega
  · rw [get_category_eq, fifteen_lt_score_iff, score_le_thirty_iff]
    split_ifs with h1 h2 h3 <;> simp <;> omega
  · rw [get_category_eq, thirty_lt_score_iff]
    split_ifs with h1 h2 h3 <;> simp <;> omega

/-- C3: for every input text (PRD plus optional architecture document),
each of the eight factor counts produced by `analyze` lies in `[0, 20]`:
the per-category sum of matches is saturated at 20, not an error. -/
theorem spec_counts_in_range (content : String) (archContent : Option String) :
    (0 ≤ (ComplexityAnalyzer.analyze content archContent).functional_requirements ∧
      (ComplexityAnalyzer.analyze content archContent).functional_requirements ≤ 20) ∧
    (0 ≤ (ComplexityAnalyzer.analyze content archContent).integration_points ∧
      (ComplexityAnalyzer.analyze content archContent).integration_points ≤ 20) ∧
    (0 ≤ (ComplexityAnalyzer.analyze content archContent).ui_components ∧
      (ComplexityAnalyzer.analyze content archContent).ui_components ≤ 20) ∧
    (0 ≤ (ComplexityAnalyzer.analyze content archContent).database_changes ∧
      (ComplexityAnalyzer.analyze content archContent).database_changes ≤ 20) ∧
    (0 ≤ (ComplexityAnalyzer.analyze content archContent).external_apis ∧
      (ComplexityAnalyzer.analyze content archContent).external_apis ≤ 20) ∧
    (0 ≤ (ComplexityAnalyzer.analyze content archContent).authentication_features ∧
      (ComplexityAnalyzer.analyze content archContent).authentication_features ≤ 20) ∧
    (0 ≤ (ComplexityAnalyzer.analyze content archContent).file_operations ∧
      (ComplexityAnalyzer.analyze content archContent).file_operations ≤ 20) ∧
    (0 ≤ (ComplexityAnalyzer.analyze content archContent).real_time_features ∧
      (ComplexityAnalyzer.analyze content archContent).real_time_features ≤ 20) := by
  unfold ComplexityAnalyzer.analyze
  exact ⟨⟨Nat.zero_le _, Nat.min_le_right _ _⟩, ⟨Nat.zero_le _, Nat.min_le_right _ _⟩,
    ⟨Nat.zero_le _, Nat.min_le_right _ _⟩, ⟨Nat.zero_le _, Nat.min_le_right _ _⟩,
    ⟨Nat.zero_le _, Nat.min_le_right _ _⟩, ⟨Nat.zero_le _, Nat.min_le_right _ _⟩,
    ⟨Nat.zero_le _, Nat.min_le_right _ _⟩, ⟨Nat.zero_le _, Nat.min_le_right _ _⟩⟩

/-- C4: the story-count range is (3,5)/(6,12)/(13,25)/(26,50) for the four
categories; any other category value falls back to the medium range (6,12);
and the fallback is unreachable because `get_category` only returns the
four fixed labels. -/
theorem spec_story_ranges :
    (∀ f : ComplexityFactors, f.get_category = "simple" → f.get_story_count_range = (3, 5)) ∧
    (∀ f : ComplexityFactors, f.get_category = "medium" → f.get_story_count_range = (6, 12)) ∧
    (∀ f : ComplexityFactors, f.get_category = "complex" → f.get_story_count_range = (13, 25)) ∧
    (∀ f : ComplexityFactors, f.get_category = "enterprise" → f.get_story_count_range = (26, 50)) ∧
    (∀ c : String, c ≠ "simple" → c ≠ "medium" → c ≠ "complex" → c ≠ "enterprise" →
      (story_ranges_table.lookup c).getD (6, 12) = (6, 12)) ∧
    (∀ f : ComplexityFactors,
      f.get_category = "simple" ∨ f.get_category = "medium" ∨
      f.get_category = "complex" ∨ f.get_category = "enterprise") := by
  refine ⟨?_, ?_, ?_, ?_, ?_, ?_⟩
  · intro f h
    unfold ComplexityFactors.get_story_count_range
    rw [h]
    decide
  · intro f h
    unfold ComplexityFactors.get_story_count_range
    rw [h]
    decide
  · intro f h
    unfold ComplexityFactors.get_story_count_range
    rw [h]
    decide
  · intro f h
    unfold ComplexityFactors.get_story_count_range
    rw [h]
    decide
  · intro c h1 h2 h3 h4
    simp [story_ranges_table, List.lookup, beq_eq_false_iff_ne.mpr h1,
      beq_eq_false_iff_ne.mpr h2, beq_eq_false_iff_ne.mpr h3, beq_eq_false_iff_ne.mpr h4]
  · intro f
    rw [get_category_eq]
    split_ifs <;> simp

/-- Unfolding lemma for `get_iteration_estimate` that avoids reducing the
story-range scrutinee. -/
theorem get_iteration_estimate_eq (f : ComplexityFactors) :
    f.get_iteration_estimate =
      (f.get_story_count_range.1, 3 * f.get_story_count_range.2 / 2) := by
  unfold ComplexityFactors.get_iteration_estimate
  rcases hsr : f.get_story_count_range with ⟨a, b⟩
  rfl

/-- C5: the iteration range's low bound equals the story range's low bound,
its high bound is `⌊story_high · 1.5⌋ = 3·story_high/2`, the four category
highs map as 5→7, 12→18, 25→37, 50→75, and the iteration high is always at
least the story high. -/
theorem spec_iteration_estimate (f : ComplexityFactors) :
    f.get_iteration_estimate.1 = f.get_story_count_range.1 ∧
    f.get_iteration_estimate.2 = 3 * f.get_story_count_range.2 / 2 ∧
    f.get_story_count_range.2 ≤ f.get_iteration_estimate.2 ∧
    (f.get_story_count_range.2 = 5 → f.get_iteration_estimate.2 = 7) ∧
    (f.get_story_count_range.2 = 12 → f.get_iteration_estimate.2 = 18) ∧
    (f.get_story_count_range.2 = 25 → f.get_iteration_estimate.2 = 37) ∧
    (f.get_story_count_range.2 = 50 → f.get_iteration_estimate.2 = 75) := by
  rw [get_iteration_estimate_eq]
  refine ⟨rfl, rfl, by simp only [Prod.snd]; omega, ?_, ?_, ?_, ?_⟩ <;>
    (intro hb; simp only [Prod.snd, hb])

/-- C6: the analysis core is total by construction (every `analyze` call
returns a fully-populated record), and on empty PRD text with no
architecture document all eight counts are 0, the score is 0, the category
is "simple", the story range is (3,5) and the iteration range is (3,7). -/
theorem spec_empty_input :
    ComplexityAnalyzer.analyze "" none = ⟨0, 0, 0, 0, 0, 0, 0, 0⟩ ∧
    (ComplexityAnalyzer.analyze "" none).calculate_score = 0 ∧
    (ComplexityAnalyzer.analyze "" none).get_category = "simple" ∧
    (ComplexityAnalyzer.analyze "" none).get_story_count_range = (3, 5) ∧
    (ComplexityAnalyzer.analyze "" none).get_iteration_estimate = (3, 7) := by
  have h : ComplexityAnalyzer.analyze "" none = ⟨0, 0, 0, 0, 0, 0, 0, 0⟩ := by decide
  have hsc : (⟨0, 0, 0, 0, 0, 0, 0, 0⟩ : ComplexityFactors).calculate_score = 0 := by
    rw [calculate_score_eq]
    norm_num [scoreNum]
  have hcat : (⟨0, 0, 0, 0, 0, 0, 0, 0⟩ : ComplexityFactors).get_category = "simple" := by
    rw [get_category_eq]
    norm_num [scoreNum]
  have hsr : (⟨0, 0, 0, 0, 0, 0, 0, 0⟩ : ComplexityFactors).get_story_count_range = (3, 5) := by
    unfold ComplexityFactors.get_story_count_range
    rw [hcat]
    decide
  have hit : (⟨0, 0, 0, 0, 0, 0, 0, 0⟩ : ComplexityFactors).get_iteration_estimate = (3, 7) := by
    rw [get_iteration_estimate_eq, hsr]
    rfl
  refine ⟨h, ?_, ?_, ?_, ?_⟩ <;> rw [h]
  all_goals first | exact hsc | exact hcat | exact hsr | exact hit

/-- Division of cast naturals by 10 is monotone; the score-side form of
monotonicity of the weighted sum. -/
theorem scoreNum_div_mono {x y : ℕ} (h : x ≤ y) : (x : ℚ) / 10 ≤ (y : ℚ) / 10 := by
  gcongr

/-- C7: the score is monotonically non-decreasing in each individual factor
count: raising any one of the eight counts, holding the other seven fixed,
never decreases the weighted score. -/
theorem spec_score_monotone :
    (∀ (f : ComplexityFactors) (n : ℕ), f.functional_requirements ≤ n →
      f.calculate_score ≤ ({ f with functional_requirements := n }).calculate_score) ∧
    (∀ (f : ComplexityFactors) (n : ℕ), f.integration_points ≤ n →
      f.calculate_score ≤ ({ f with integration_points := n }).calculate_score) ∧
    (∀ (f : ComplexityFactors) (n : ℕ), f.ui_components ≤ n →
      f.calculate_score ≤ ({ f with ui_components := n }).calculate_score) ∧
    (∀ (f : ComplexityFactors) (n : ℕ), f.database_changes ≤ n →
      f.calculate_score ≤ ({ f with database_changes := n }).calculate_score) ∧
    (∀ (f : ComplexityFactors) (n : ℕ), f.external_apis ≤ n →
      f.calculate_score ≤ ({ f with external_apis := n }).calculate_score) ∧
    (∀ (f : ComplexityFactors) (n : ℕ), f.authentication_features ≤ n →
      f.calculate_score ≤ ({ f with authentication_features := n }).calculate_score) ∧
    (∀ (f : ComplexityFactors) (n : ℕ), f.file_operations ≤ n →
      f.calculate_score ≤ ({ f with file_operations := n }).calculate_score) ∧
    (∀ (f : ComplexityFactors) (n : ℕ), f.real_time_features ≤ n →
      f.calculate_score ≤ ({ f with real_time_features := n }).calculate_score) := by
  refine ⟨?_, ?_, ?_, ?_, ?_, ?_, ?_, ?_⟩ <;>
    (intro f n h
     rw [calculate_score_eq, calculate_score_eq]
     apply scoreNum_div_mono
     simp only [scoreNum]
     omega)

/-- C8: feature-name extraction tries, against the (lower-cased) PRD text
only, the labeled-heading pattern, then the first markdown heading, then the
inline label, in priority order; the first match's group is slugified
(`slugify`: strip, lower-case, collapse non-alphanumeric runs to "-", trim
dashes); with no match it returns "feature"; and
`"# My Great Feature"` yields `"my-great-feature"`. -/
theorem spec_feature_name :
    ComplexityAnalyzer.extract_feature_name "# My Great Feature" = "my-great-feature" ∧
    (∀ (content : String) (cap : Caps),
      searchCap titlePat1 (pyLower content.data) = some cap →
      ComplexityAnalyzer.extract_feature_name content = slugify cap) ∧
    (∀ (content : String) (cap : Caps),
      searchCap titlePat1 (pyLower content.data) = none →
      searchCap titlePat2 (pyLower content.data) = some cap →
      ComplexityAnalyzer.extract_feature_name content = slugify cap) ∧
    (∀ (content : String) (cap : Caps),
      searchCap titlePat1 (pyLower content.data) = none →
      searchCap titlePat2 (pyLower content.data) = none →
      searchCap titlePat3 (pyLower content.data) = some cap →
      ComplexityAnalyzer.extract_feature_name content = slugify cap) ∧
    (∀ content : String,
      searchCap titlePat1 (pyLower content.data) = none →
      searchCap titlePat2 (pyLower content.data) = none →
      searchCap titlePat3 (pyLower content.data) = none →
      ComplexityAnalyzer.extract_feature_name content = "feature") := by
  refine ⟨by decide, ?_, ?_, ?_, ?_⟩
  · intro content cap h1
    unfold ComplexityAnalyzer.extract_feature_name
    rw [h1]
  · intro content cap h1 h2
    unfold ComplexityAnalyzer.extract_feature_name
    rw [h1, h2]
  · intro content cap h1 h2 h3
    unfold ComplexityAnalyzer.extract_feature_name
    rw [h1, h2, h3]
  · intro content h1 h2 h3
    unfold ComplexityAnalyzer.extract_feature_name
    rw [h1, h2, h3]

/-- Witness for C8: the fallback branch at a text with no heading, and the
labeled-heading branch at a concrete PRD title. -/
theorem spec_feature_name_witness :
    ComplexityAnalyzer.extract_feature_name "hello world" = "feature" ∧
    ComplexityAnalyzer.extract_feature_name "# PRD: Cool Thing\nrest" = "cool-thing" :=
  ⟨spec_feature_name.2.2.2.2 "hello world" (by decide) (by decide) (by decide),
   (spec_feature_name.2.1 "# PRD: Cool Thing\nrest" (some "cool thing".data)
      (by decide)).trans (by decide)⟩

/-- C9: project-name extraction tries, against the (lower-cased) PRD text,
the `project:` label pattern and then the capitalized-phrase pattern, in
order; it returns the first match's captured text (whitespace-stripped),
and falls back to "Project" when neither pattern matches. -/
theorem spec_project_name :
    (∀ (content : String) (cap : Caps),
      searchCap projPat1 (pyLower content.data) = some cap →
      ComplexityAnalyzer.extract_project_name content = String.mk (pyStrip (cap.getD []))) ∧
    (∀ (content : String) (cap : Caps),
      searchCap projPat1 (pyLower content.data) = none →
      searchCap projPat2 (pyLower content.data) = some cap →
      ComplexityAnalyzer.extract_project_name content = String.mk (pyStrip (cap.getD []))) ∧
    (∀ content : String,
      searchCap projPat1 (pyLower content.data) = none →
      searchCap projPat2 (pyLower content.data) = none →
      ComplexityAnalyzer.extract_project_name content = "Project") := by
  refine ⟨?_, ?_, ?_⟩
  · intro content cap h1
    unfold ComplexityAnalyzer.extract_project_name
    rw [h1]
  · intro content cap h1 h2
    unfold ComplexityAnalyzer.extract_project_name
    rw [h1, h2]
  · intro content h1 h2
    unfold ComplexityAnalyzer.extract_project_name
    rw [h1, h2]

/-- Witness for C9: the fallback branch at a text matching neither pattern,
and the label branch at a concrete `project:` line. -/
theorem spec_project_name_witness :
    ComplexityAnalyzer.extract_project_name "hello" = "Project" ∧
    ComplexityAnalyzer.extract_project_name "project: Alpha" = "alpha" :=
  ⟨spec_project_name.2.2 "hello" (by decide) (by decide),
   (spec_project_name.1 "project: Alpha" (some "alpha".data) (by decide)).trans (by decide)⟩

/-- C10: for every record with all eight counts in [0, 20] (every record the
analyzer can produce), the score lies in [0, 80], equals 80 exactly when all
eight counts equal 20, and the "enterprise" band is in practice
`30 < s ≤ 80`. -/
theorem spec_score_bound (f : ComplexityFactors)
    (h1 : f.functional_requirements ≤ 20) (h2 : f.integration_points ≤ 20)
    (h3 : f.ui_components ≤ 20) (h4 : f.database_changes ≤ 20)
    (h5 : f.external_apis ≤ 20) (h6 : f.authentication_features ≤ 20)
    (h7 : f.file_operations ≤ 20) (h8 : f.real_time_features ≤ 20) :
    0 ≤ f.calculate_score ∧ f.calculate_score ≤ 80 ∧
    (f.calculate_score = 80 ↔
      (f.functional_requirements = 20 ∧ f.integration_points = 20 ∧
        f.ui_components = 20 ∧ f.database_changes = 20 ∧
        f.external_apis = 20 ∧ f.authentication_features = 20 ∧
        f.file_operations = 20 ∧ f.real_time_features = 20)) ∧
    (f.get_category = "enterprise" → 30 < f.calculate_score ∧ f.calculate_score ≤ 80) := by
  have hb : scoreNum f ≤ 800 := by
    simp only [scoreNum]
    omega
  have hle : f.calculate_score ≤ 80 := by
    rw [calculate_score_eq, div_le_iff₀ (by norm_num : (0:ℚ) < 10)]
    exact_mod_cast hb
  refine ⟨score_nonneg f, hle, ?_, ?_⟩
  · have heq : f.calculate_score = 80 ↔ scoreNum f = 800 := by
      rw [calculate_score_eq, div_eq_iff (by norm_num : (10:ℚ) ≠ 0)]
      norm_cast
    rw [heq]
    constructor
    · intro he
      simp only [scoreNum] at he
      omega
    · intro hc
      obtain ⟨e1, e2, e3, e4, e5, e6, e7, e8⟩ := hc
      simp only [scoreNum, e1, e2, e3, e4, e5, e6, e7, e8]
  · intro hcat
    refine ⟨?_, hle⟩
    rw [thirty_lt_score_iff]
    rw [get_category_eq] at hcat
    split_ifs at hcat with a b c
    · simp at hcat
    · simp at hcat
    · simp at hcat
    · omega

/-- Witness for C4: the defensive fallback at a category outside the fixed
four, and the "simple" row at the all-zero record. -/
theorem spec_story_ranges_witness :
    (story_ranges_table.lookup "other").getD (6, 12) = (6, 12) ∧
    (⟨0, 0, 0, 0, 0, 0, 0, 0⟩ : ComplexityFactors).get_story_count_range = (3, 5) :=
  ⟨spec_story_ranges.2.2.2.2.1 "other" (by decide) (by decide) (by decide) (by decide),
   spec_story_ranges.1 ⟨0, 0, 0, 0, 0, 0, 0, 0⟩ (by simp [get_category_eq, scoreNum])⟩

/-- Witness for C5: the four story-high to iteration-high mappings at
concrete records of each category. -/
theorem spec_iteration_estimate_witness :
    (⟨0, 0, 0, 0, 0, 0, 0, 0⟩ : ComplexityFactors).get_iteration_estimate.2 = 7 ∧
    (⟨0, 0, 17, 0, 0, 0, 0, 0⟩ : ComplexityFactors).get_iteration_estimate.2 = 18 ∧
    (⟨0, 30, 0, 0, 0, 0, 0, 0⟩ : ComplexityFactors).get_iteration_estimate.2 = 37 ∧
    (⟨0, 60, 0, 0, 0, 0, 0, 0⟩ : ComplexityFactors).get_iteration_estimate.2 = 75 :=
  ⟨(spec_iteration_estimate _).2.2.2.1
      (by simp [ComplexityFactors.get_story_count_range, get_category_eq, scoreNum,
        story_ranges_table, List.lookup]),
   (spec_iteration_estimate _).2.2.2.2.1
      (by simp [ComplexityFactors.get_story_count_range, get_category_eq, scoreNum,
        story_ranges_table, List.lookup]),
   (spec_iteration_estimate _).2.2.2.2.2.1
      (by simp [ComplexityFactors.get_story_count_range, get_category_eq, scoreNum,
        story_ranges_table, List.lookup]),
   (spec_iteration_estimate _).2.2.2.2.2.2
      (by simp [ComplexityFactors.get_story_count_range, get_category_eq, scoreNum,
        story_ranges_table, List.lookup])⟩

/-- Witness for C7: each of the eight single-factor monotonicity conjuncts
applied at a concrete record. -/
theorem spec_score_monotone_witness :
    (⟨1, 1, 1, 1, 1, 1, 1, 1⟩ : ComplexityFactors).calculate_score ≤
      ({ (⟨1, 1, 1, 1, 1, 1, 1, 1⟩ : ComplexityFactors) with
        functional_requirements := 2 }).calculate_score ∧
    (⟨1, 1, 1, 1, 1, 1, 1, 1⟩ : ComplexityFactors).calculate_score ≤
      ({ (⟨1, 1, 1, 1, 1, 1, 1, 1⟩ : ComplexityFactors) with
        integration_points := 2 }).calculate_score ∧
    (⟨1, 1, 1, 1, 1, 1, 1, 1⟩ : ComplexityFactors).calculate_score ≤
      ({ (⟨1, 1, 1, 1, 1, 1, 1, 1⟩ : ComplexityFactors) with
        ui_components := 2 }).calculate_score ∧
    (⟨1, 1, 1, 1, 1, 1, 1, 1⟩ : ComplexityFactors).calculate_score ≤
      ({ (⟨1, 1, 1, 1, 1, 1, 1, 1⟩ : ComplexityFactors) with
        database_changes := 2 }).calculate_score ∧
    (⟨1, 1, 1, 1, 1, 1, 1, 1⟩ : ComplexityFactors).calculate_score ≤
      ({ (⟨1, 1, 1, 1, 1, 1, 1, 1⟩ : ComplexityFactors) with
        external_apis := 2 }).calculate_score ∧
    (⟨1, 1, 1, 1, 1, 1, 1, 1⟩ : ComplexityFactors).calculate_score ≤
      ({ (⟨1, 1, 1, 1, 1, 1, 1, 1⟩ : ComplexityFactors) with
        authentication_features := 2 }).calculate_score ∧
    (⟨1, 1, 1, 1, 1, 1, 1, 1⟩ : ComplexityFactors).calculate_score ≤
      ({ (⟨1, 1, 1, 1, 1, 1, 1, 1⟩ : ComplexityFactors) with
        file_operations := 2 }).calculate_score ∧
    (⟨1, 1, 1, 1, 1, 1, 1, 1⟩ : ComplexityFactors).calculate_score ≤
      ({ (⟨1, 1, 1, 1, 1, 1, 1, 1⟩ : ComplexityFactors) with
        real_time_features := 2 }).calculate_score :=
  ⟨spec_score_monotone.1 ⟨1, 1, 1, 1, 1, 1, 1, 1⟩ 2 (by decide),
   spec_score_monotone.2.1 ⟨1, 1, 1, 1, 1, 1, 1, 1⟩ 2 (by decide),
   spec_score_monotone.2.2.1 ⟨1, 1, 1, 1, 1, 1, 1, 1⟩ 2 (by decide),
   spec_score_monotone.2.2.2.1 ⟨1, 1, 1, 1, 1, 1, 1, 1⟩ 2 (by decide),
   spec_score_monotone.2.2.2.2.1 ⟨1, 1, 1, 1, 1, 1, 1, 1⟩ 2 (by decide),
   spec_score_monotone.2.2.2.2.2.1 ⟨1, 1, 1, 1, 1, 1, 1, 1⟩ 2 (by decide),
   spec_score_monotone.2.2.2.2.2.2.1 ⟨1, 1, 1, 1, 1, 1, 1, 1⟩ 2 (by decide),
   spec_score_monotone.2.2.2.2.2.2.2 ⟨1, 1, 1, 1, 1, 1, 1, 1⟩ 2 (by decide)⟩

/-- Witness for C10: the bound theorem applied at the all-20 record. -/
theorem spec_score_bound_witness :
    0 ≤ (⟨20, 20, 20, 20, 20, 20, 20, 20⟩ : ComplexityFactors).calculate_score ∧
    (⟨20, 20, 20, 20, 20, 20, 20, 20⟩ : ComplexityFactors).calculate_score ≤ 80 ∧
    ((⟨20, 20, 20, 20, 20, 20, 20, 20⟩ : ComplexityFactors).calculate_score = 80 ↔
      ((⟨20, 20, 20, 20, 20, 20, 20, 20⟩ : ComplexityFactors).functional_requirements = 20 ∧
        (⟨20, 20, 20, 20, 20, 20, 20, 20⟩ : ComplexityFactors).integration_points = 20 ∧
        (⟨20, 20, 20, 20, 20, 20, 20, 20⟩ : ComplexityFactors).ui_components = 20 ∧
        (⟨20, 20, 20, 20, 20, 20, 20, 20⟩ : ComplexityFactors).database_changes = 20 ∧
        (⟨20, 20, 20, 20, 20, 20, 20, 20⟩ : ComplexityFactors).external_apis = 20 ∧
        (⟨20, 20, 20, 20, 20, 20, 20, 20⟩ : ComplexityFactors).authentication_features = 20 ∧
        (⟨20, 20, 20, 20, 20, 20, 20, 20⟩ : ComplexityFactors).file_operations = 20 ∧
        (⟨20, 20, 20, 20, 20, 20, 20, 20⟩ : ComplexityFactors).real_time_features = 20)) ∧
    ((⟨20, 20, 20, 20, 20, 20, 20, 20⟩ : ComplexityFactors).get_category = "enterprise" →
      30 < (⟨20, 20, 20, 20, 20, 20, 20, 20⟩ : ComplexityFactors).calculate_score ∧
      (⟨20, 20, 20, 20, 20, 20, 20, 20⟩ : ComplexityFactors).calculate_score ≤ 80) :=
  spec_score_bound ⟨20, 20, 20, 20, 20, 20, 20, 20⟩ (by decide) (by decide) (by decide)
    (by decide) (by decide) (by decide) (by decide) (by decide)
